import Mathlib

/-!
Shallow embedding of the GitReviewed webhook-to-notification pipeline
(secret scanner, severity classifier, webhook gate, review orchestrator),
translated from the Go sources of the repository.
-/

namespace GitReviewed

/-! ### Character-list utilities

`isPrefixSeq needle hay` checks that `needle` is an initial segment of `hay`;
`containsSeq needle hay` checks that `needle` occurs as a contiguous
subsequence of `hay`.  These model Go substring search on byte strings. -/

def isPrefixSeq : List Char → List Char → Bool
  | [], _ => true
  | _ :: _, [] => false
  | a :: as, b :: bs => a == b && isPrefixSeq as bs

def containsSeq (needle : List Char) : List Char → Bool
  | [] => isPrefixSeq needle []
  | c :: cs => isPrefixSeq needle (c :: cs) || containsSeq needle cs

/-- ASCII lowering of a string to a character list, modelling the effect of a
Go `(?i)` regexp flag on ASCII input. -/
def lowerChars (s : String) : List Char := s.data.map Char.toLower

/-- Case-insensitive substring containment: does `line` contain `marker`
(markers are written in lowercase) ignoring ASCII case? -/
def containsCI (line : String) (marker : String) : Bool :=
  containsSeq (lowerChars marker) (lowerChars line)

/-! ### Ignore heuristic — `scanner.ShouldIgnoreLine`

The source tests the line against ten `(?i)` regexps.  Eight of them are
plain literals under the case-insensitive flag; the remaining two,
`(?i)your[_-]?key[_-]?here` and `(?i)replace[_-]?with`, are expanded into
the finite set of strings they denote (each `[_-]?` is one of "", "_", "-"). -/

def sepOptions : List String := ["", "_", "-"]

/-- The strings matched by `(?i)your[_-]?key[_-]?here` (modulo case). -/
def yourKeyHereVariants : List String :=
  sepOptions.flatMap fun s1 =>
    sepOptions.map fun s2 => "your" ++ s1 ++ "key" ++ s2 ++ "here"

/-- The strings matched by `(?i)replace[_-]?with` (modulo case). -/
def replaceWithVariants : List String :=
  sepOptions.map fun s1 => "replace" ++ s1 ++ "with"

/-- The full set of case-insensitive markers of `ShouldIgnoreLine`:
`example`, `sample`, `dummy`, `test`, `fake`, `placeholder`,
`your[_-]?key[_-]?here`, `replace[_-]?with`, `TODO`, `FIXME`. -/
def ignoreMarkers : List String :=
  ["example", "sample", "dummy", "test", "fake", "placeholder"]
    ++ yourKeyHereVariants ++ replaceWithVariants ++ ["todo", "fixme"]

/-- `scanner.ShouldIgnoreLine`: true iff the line matches any ignore regexp,
i.e. contains any marker case-insensitively. -/
def ShouldIgnoreLine (line : String) : Bool :=
  ignoreMarkers.any fun m => containsCI line m

/-! ### Scanner data model — `internal/models/types.go` and
`internal/scanner` -/

/-- `scanner.SecretPattern`: the compiled regexp is embedded as its
`MatchString` function. -/
structure SecretPattern where
  name : String
  matcher : String → Bool
  description : String
  severity : String

/-- `models.SecurityIssue`. -/
structure SecurityIssue where
  type : String
  filePath : String
  lineNumber : Nat
  severity : String
  description : String
  pattern : String
deriving DecidableEq, Repr

/-- `models.DiffFile`. -/
structure DiffFile where
  filename : String
  status : String
  additions : Int
  deletions : Int
  changes : Int
  patch : String

/-- `models.ScanResult` (the `ScannedAt` timestamp is stamped by the caller
and carries no information for the scan itself, so it is omitted). -/
structure ScanResult where
  found : Bool
  issues : List SecurityIssue
  totalFiles : Nat

/-! ### Line splitting — `bufio.Scanner` with `ScanLines`

Tokens are the text between newlines; a trailing `\r` is dropped from each
token; empty input yields no token; input ending in `\n` yields no final
empty token. -/

/-- `dropCR` of `bufio.ScanLines`: strip one trailing carriage return. -/
def dropCR (l : List Char) : List Char :=
  match l.getLast? with
  | some c => if c == Char.ofNat 13 then l.dropLast else l
  | none => l

/-- The token loop of `bufio.Scanner`: `acc` holds the characters of the
line being assembled; at a newline the token is emitted; at end of input a
non-empty remainder is emitted as a final token. -/
def linesOf (acc : List Char) : List Char → List String
  | [] => if acc.isEmpty then [] else [String.mk (dropCR acc)]
  | c :: cs =>
      if c == Char.ofNat 10 then String.mk (dropCR acc) :: linesOf [] cs
      else linesOf (acc ++ [c]) cs

/-- The line sequence that `bufio.Scanner` yields for `s`. -/
def splitLines (s : String) : List String := linesOf [] s.data

/-! ### The line scanner — `Scanner.ScanDiff`

For each line (1-based counter): skip removal lines (leading `-`), skip
ignorable lines, otherwise append one issue per matching pattern. -/

/-- Issues produced by one line of the diff. -/
def scanOneLine (patterns : List SecretPattern) (filename : String)
    (line : String) (lineNumber : Nat) : List SecurityIssue :=
  if isPrefixSeq ("-".data) line.data then []
  else if ShouldIgnoreLine line then []
  else
    patterns.filterMap fun p =>
      if p.matcher line then
        some { type := p.name, filePath := filename, lineNumber := lineNumber,
               severity := p.severity, description := p.description,
               pattern := p.name }
      else none

/-- The scanning loop over the remaining lines, with `n` lines already
consumed (so the next line is number `n + 1`). -/
def scanLines (patterns : List SecretPattern) (filename : String) :
    List String → Nat → List SecurityIssue
  | [], _ => []
  | line :: rest, n =>
      scanOneLine patterns filename line (n + 1)
        ++ scanLines patterns filename rest (n + 1)

/-- `Scanner.ScanDiff`. -/
def ScanDiff (patterns : List SecretPattern) (diff : String)
    (filename : String) : List SecurityIssue :=
  scanLines patterns filename (splitLines diff) 0

/-! ### The file aggregator — `Scanner.ScanFiles` -/

/-- The issue-accumulation loop of `ScanFiles`. -/
def scanFilesIssues (patterns : List SecretPattern) :
    List DiffFile → List SecurityIssue
  | [] => []
  | f :: rest =>
      ScanDiff patterns f.patch f.filename ++ scanFilesIssues patterns rest

/-- `Scanner.ScanFiles`. -/
def ScanFiles (patterns : List SecretPattern) (files : List DiffFile) :
    ScanResult :=
  let allIssues := scanFilesIssues patterns files
  { found := allIssues.length > 0
    issues := allIssues
    totalFiles := files.length }

/-! ### Two catalog patterns — `scanner.GetDefaultPatterns`

The claims exercise two concrete regexps of the default catalog; their
`MatchString` functions are embedded as executable matchers.  A regexp
match is an occurrence at some suffix of the line, so each matcher tries
the anchored-at-position match `...At` at every suffix. -/

/-- Try a literal: if `lit` is an initial segment of `cs`, return the rest. -/
def tryLit (lit : List Char) (cs : List Char) : Option (List Char) :=
  match lit, cs with
  | [], rest => some rest
  | _ :: _, [] => none
  | a :: as, b :: bs => if a == b then tryLit as bs else none

/-- Consume exactly `n` characters satisfying `p`, returning the rest. -/
def matchClassN (p : Char → Bool) : Nat → List Char → Option (List Char)
  | 0, cs => some cs
  | _ + 1, [] => none
  | n + 1, c :: cs => if p c then matchClassN p n cs else none

/-- Does the anchored pattern `p` match starting at some position of `cs`?
(Unanchored regexp search.) -/
def anySuffix (p : List Char → Bool) : List Char → Bool
  | [] => p []
  | c :: cs => p (c :: cs) || anySuffix p cs

/-- The character class `[A-Z0-9]`. -/
def isUpperAlnum (c : Char) : Bool :=
  (Char.ofNat 65 ≤ c && c ≤ Char.ofNat 90) ||
  (Char.ofNat 48 ≤ c && c ≤ Char.ofNat 57)

/-- The character class `[a-z0-9]` (the lowered image of `[a-zA-Z0-9]`). -/
def isLowerAlnum (c : Char) : Bool :=
  (Char.ofNat 97 ≤ c && c ≤ Char.ofNat 122) ||
  (Char.ofNat 48 ≤ c && c ≤ Char.ofNat 57)

/-- The Go regexp class `\s`, i.e. `[\t\n\f\r ]`. -/
def isGoSpace (c : Char) : Bool :=
  c == ' ' || c == Char.ofNat 9 || c == Char.ofNat 10 ||
  c == Char.ofNat 12 || c == Char.ofNat 13

/-- Anchored match of
`(A3T[A-Z0-9]|AKIA|AGPA|AIDA|AROA|AIPA|ANPA|ANVA|ASIA)[A-Z0-9]{16}`
at the start of `cs`.  The nine alternatives are pairwise exclusive at any
given position (their second characters differ, resp. third for
`AIDA`/`AIPA`), so trying them in order is exact. -/
def awsAccessKeyAt (cs : List Char) : Bool :=
  (match tryLit ("A3T".data) cs with
   | some (c :: rest) =>
       isUpperAlnum c && (matchClassN isUpperAlnum 16 rest).isSome
   | _ => false) ||
  (["AKIA", "AGPA", "AIDA", "AROA", "AIPA", "ANPA", "ANVA", "ASIA"].any
    fun lit =>
      match tryLit lit.data cs with
      | some rest => (matchClassN isUpperAlnum 16 rest).isSome
      | none => false)

/-- `MatchString` of the `AWS Access Key ID` pattern. -/
def awsAccessKeyMatchString (line : String) : Bool :=
  anySuffix awsAccessKeyAt line.data

/-- Anchored match of the lowered
`(?i)(api[_-]?key|apikey)\s*[:=]\s*['\"][a-zA-Z0-9]{20,}['\"]`
on an already-lowercased character list.  The `apikey` alternative is the
`[_-]?`-empty case of the first alternative; `\s*` is followed by a
non-space character and `[a-zA-Z0-9]{20,}` by a non-alphanumeric one, so
maximal munch is exact. -/
def genericApiKeyAt (cs : List Char) : Bool :=
  match tryLit ("api".data) cs with
  | none => false
  | some rest =>
    let branches :=
      match rest with
      | c :: rest2 => if c == '_' || c == '-' then [rest, rest2] else [rest]
      | [] => [rest]
    branches.any fun t =>
      match tryLit ("key".data) t with
      | none => false
      | some r1 =>
        match r1.dropWhile isGoSpace with
        | [] => false
        | c :: r3 =>
          if c == ':' || c == '=' then
            match r3.dropWhile isGoSpace with
            | [] => false
            | q :: r5 =>
              if q == Char.ofNat 39 || q == Char.ofNat 34 then
                decide ((r5.takeWhile isLowerAlnum).length ≥ 20) &&
                (match r5.dropWhile isLowerAlnum with
                 | q2 :: _ => q2 == Char.ofNat 39 || q2 == Char.ofNat 34
                 | [] => false)
              else false
          else false

/-- `MatchString` of the `Generic API Key` pattern: the `(?i)` flag is
modelled by lowering the line before the search. -/
def genericApiKeyMatchString (line : String) : Bool :=
  anySuffix genericApiKeyAt (lowerChars line)

/-- The `AWS Access Key ID` entry of `GetDefaultPatterns`. -/
def awsAccessKeyPattern : SecretPattern :=
  { name := "AWS Access Key ID"
    matcher := awsAccessKeyMatchString
    description := "AWS Access Key ID detected"
    severity := "CRITICAL" }

/-- The `Generic API Key` entry of `GetDefaultPatterns`. -/
def genericApiKeyPattern : SecretPattern :=
  { name := "Generic API Key"
    matcher := genericApiKeyMatchString
    description := "Generic API key pattern detected"
    severity := "HIGH" }

/-! ### Severity grouping — `slack.BuildSecurityAlertBlocks`

The source loops over the issues and appends each to one of four buckets
via a `switch` on the severity string; the `switch` has no `default`
branch. -/

/-- The four-bucket grouping loop of `BuildSecurityAlertBlocks`
(critical, high, medium, low), preserving discovery order. -/
def groupBySeverity : List SecurityIssue →
    List SecurityIssue × List SecurityIssue ×
    List SecurityIssue × List SecurityIssue
  | [] => ([], [], [], [])
  | issue :: rest =>
    let (c, h, m, l) := groupBySeverity rest
    if issue.severity == "CRITICAL" then (issue :: c, h, m, l)
    else if issue.severity == "HIGH" then (c, issue :: h, m, l)
    else if issue.severity == "MEDIUM" then (c, h, issue :: m, l)
    else if issue.severity == "LOW" then (c, h, m, issue :: l)
    else (c, h, m, l)

/-! ### Webhook signature verification — `GitHubClient.VerifyWebhook`

Payload and secret are byte sequences; the HMAC-SHA256 primitive comes
from the Go standard library, outside this repository, so it enters the
model as a parameter mapping (secret, payload) to the digest bytes.  The
signature header is a character sequence.  `hmac.Equal` on the byte
images of two strings is exactly their character-sequence equality. -/

/-- One lowercase hex digit. -/
def hexDigit (n : Nat) : Char :=
  if n < 10 then Char.ofNat (48 + n) else Char.ofNat (97 + (n - 10))

/-- `hex.EncodeToString`: two lowercase hex digits per byte. -/
def hexEncode (bs : List Nat) : List Char :=
  bs.flatMap fun b => [hexDigit (b / 16 % 16), hexDigit (b % 16)]

/-- `GitHubClient.VerifyWebhook`: require the `sha256=` prefix, strip it,
recompute the HMAC of the payload under the webhook secret, hex-encode it,
and compare. -/
def VerifyWebhook (hmacSHA256 : List Nat → List Nat → List Nat)
    (webhookSecret : List Nat) (payload : List Nat)
    (signature : List Char) : Bool :=
  if !isPrefixSeq ("sha256=".data) signature then false
  else
    let sig := signature.drop ("sha256=".data.length)
    let expectedSignature := hexEncode (hmacSHA256 webhookSecret payload)
    sig == expectedSignature

/-! ### Inbound payload — `models.WebhookPayload` (the fields the pipeline
reads) -/

/-- `models.User` (the field the pipeline reads). -/
structure User where
  login : String
deriving DecidableEq, Repr

/-- `models.GitRef`. -/
structure GitRef where
  ref : String
  sha : String
deriving DecidableEq, Repr

/-- `models.PullRequest` (the fields the pipeline reads). -/
structure PullRequest where
  number : Int
  head : GitRef
deriving DecidableEq, Repr

/-- `models.Repository` (the fields the pipeline reads). -/
structure Repository where
  name : String
  owner : User
deriving DecidableEq, Repr

/-- `models.WebhookPayload`. -/
structure WebhookPayload where
  action : String
  pullRequest : PullRequest
  repository : Repository
deriving DecidableEq, Repr

/-! ### The HTTP gate — `WebhookHandler.HandleWebhook`

The handler is a pure decision over: the request method, whether the body
read succeeded, whether signature verification passed, the
`X-GitHub-Event` header, and the outcome of `json.Unmarshal` (`none` for
an unparsable body).  Each constructor is one of the handler's early
returns; `accepted` is the sole branch that dispatches
`processPullRequest`. -/

inductive HandleResult where
  | methodNotAllowed
  | badRequestRead
  | unauthorized
  | eventIgnored
  | badRequestParse
  | actionIgnored
  | accepted (payload : WebhookPayload)
deriving DecidableEq, Repr

/-- `WebhookHandler.HandleWebhook`, in the order of the source's checks. -/
def HandleWebhook (method : String) (readOk : Bool) (sigValid : Bool)
    (eventType : String) (parsed : Option WebhookPayload) : HandleResult :=
  if method != "POST" then .methodNotAllowed
  else if !readOk then .badRequestRead
  else if !sigValid then .unauthorized
  else if eventType != "pull_request" then .eventIgnored
  else
    match parsed with
    | none => .badRequestParse
    | some payload =>
      if payload.action != "opened" && payload.action != "synchronize" then
        .actionIgnored
      else .accepted payload

/-- The HTTP status code written for each handler outcome. -/
def httpStatus : HandleResult → Nat
  | .methodNotAllowed => 405
  | .badRequestRead => 400
  | .unauthorized => 401
  | .eventIgnored => 200
  | .badRequestParse => 400
  | .actionIgnored => 200
  | .accepted _ => 200

/-- Whether the handler outcome spawns the asynchronous PR processing. -/
def dispatchesProcessing : HandleResult → Bool
  | .accepted _ => true
  | _ => false

/-! ### The orchestrator — `WebhookHandler.processPullRequest`

The collaborator calls are modelled as a trace of effects; the
collaborators' outcomes are supplied up front (each run observes fixed
responses).  Errors of `PostCommitStatus` and of the Slack sends are only
logged by the source and never change control flow, so they need not
appear among the inputs that the trace depends on; the send-alert error
flag is kept so that claims can hypothesise it. -/

/-- One Slack notification kind sent by the orchestrator. -/
inductive SlackMsg where
  | securityAlert
  | reviewComplete
  | aiReview (text : String)
deriving DecidableEq, Repr

/-- One observable collaborator effect of `processPullRequest`. -/
inductive Action where
  | postStatus (owner repo sha : String) (state : String)
      (description : String) (context : String)
  | scanFiles
  | sendSlack (msg : SlackMsg)
  | requestAIReview
deriving DecidableEq, Repr

/-- Outcomes of the collaborators consumed by one run. -/
structure Collab where
  getPRDiff : Except String (List DiffFile)
  postPendingErr : Bool
  postStatusErr : Bool
  sendAlertErr : Bool
  aiReview : Except String String
  sendReviewCompleteErr : Bool
  sendAIReviewErr : Bool

/-- The status context string used by every `PostCommitStatus` call. -/
def statusContext : String := "gitreviewed/security-scan"

/-- `WebhookHandler.processPullRequest` as the trace of collaborator
effects it performs, in program order. -/
def processPullRequest (patterns : List SecretPattern)
    (payload : WebhookPayload) (c : Collab) : List Action :=
  let owner := payload.repository.owner.login
  let repo := payload.repository.name
  let sha := payload.pullRequest.head.sha
  let pending :=
    Action.postStatus owner repo sha "pending"
      "GitReviewed is scanning for secrets..." statusContext
  match c.getPRDiff with
  | .error _ =>
      [pending,
       Action.postStatus owner repo sha "error" "Failed to fetch PR diff"
         statusContext]
  | .ok diffFiles =>
      let scanResult := ScanFiles patterns diffFiles
      let criticalCount :=
        (scanResult.issues.filter fun i => i.severity == "CRITICAL").length
      let hasCriticalSecrets :=
        scanResult.issues.any fun i => i.severity == "CRITICAL"
      let statusAction :=
        if hasCriticalSecrets then
          Action.postStatus owner repo sha "failure"
            ("❌ Found " ++ toString criticalCount ++
              " critical secret(s) - merge blocked!") statusContext
        else if scanResult.found then
          Action.postStatus owner repo sha "success"
            ("⚠️  Found " ++ toString scanResult.issues.length ++
              " non-critical issue(s) - review recommended") statusContext
        else
          Action.postStatus owner repo sha "success"
            "✅ No secrets detected - safe to merge" statusContext
      let alertActions :=
        if scanResult.found then [Action.sendSlack .securityAlert] else []
      let afterAI :=
        match c.aiReview with
        | .error _ =>
            if !scanResult.found then [Action.sendSlack .reviewComplete]
            else []
        | .ok text => [Action.sendSlack (.aiReview text)]
      [pending, Action.scanFiles, statusAction] ++ alertActions
        ++ [Action.requestAIReview] ++ afterAI

/-- Is this action a post of the final scan-outcome commit status (state
`failure` or `success`), as opposed to the initial `pending` or the
fetch-failure `error` status? -/
def isFinalOutcomeStatus : Action → Bool
  | .postStatus _ _ _ state _ _ => state == "failure" || state == "success"
  | _ => false

/-! ### Helper lemmas about the line scanner -/

/-- Any issue emitted for a single line carries that line's number, and the
line was neither a removal line nor an ignorable line. -/
theorem scanOneLine_props (patterns : List SecretPattern) (filename : String)
    (line : String) (k : Nat) (issue : SecurityIssue)
    (h : issue ∈ scanOneLine patterns filename line k) :
    issue.lineNumber = k ∧
    isPrefixSeq ("-".data) line.data = false ∧
    ShouldIgnoreLine line = false := by
  rw [scanOneLine] at h
  split at h
  · exact absurd h (List.not_mem_nil _)
  · next hpre =>
    split at h
    · exact absurd h (List.not_mem_nil _)
    · next hign =>
      rw [List.mem_filterMap] at h
      obtain ⟨p, -, hp⟩ := h
      refine ⟨?_, by simpa using hpre, by simpa using hign⟩
      split at hp
      · cases hp; rfl
      · cases hp

/-- Any issue emitted by the scanning loop originates from a specific line
of the input: its line number points at that line, and that line neither
starts with `-` nor matches the ignore heuristic. -/
theorem mem_scanLines (patterns : List SecretPattern) (filename : String) :
    ∀ (lines : List String) (n : Nat) (issue : SecurityIssue),
      issue ∈ scanLines patterns filename lines n →
      ∃ i, ∃ h : i < lines.length,
        issue.lineNumber = n + i + 1 ∧
        isPrefixSeq ("-".data) ((lines.get ⟨i, h⟩).data) = false ∧
        ShouldIgnoreLine (lines.get ⟨i, h⟩) = false := by
  intro lines
  induction lines with
  | nil => intro n issue h; simp [scanLines] at h
  | cons line rest ih =>
      intro n issue hmem
      rw [scanLines, List.mem_append] at hmem
      rcases hmem with h1 | h2
      · obtain ⟨hnum, hpre, hign⟩ :=
          scanOneLine_props patterns filename line (n + 1) issue h1
        exact ⟨0, by simp, by simpa using hnum, hpre, hign⟩
      · obtain ⟨i, hi, hnum, hpre, hign⟩ := ih (n + 1) issue h2
        refine ⟨i + 1, by simpa using hi, by omega, hpre, hign⟩

/-! ### Claim theorems for the line scanner -/

/-- C3: for every input text and every line of that text beginning with
`-`, the line scanner emits no finding for that line; in particular
scanning the single line `-AKIA1234567890ABCDEF` yields zero findings. -/
theorem removal_lines_emit_no_findings :
    (∀ (patterns : List SecretPattern) (filename diff : String) (i : Nat)
        (h : i < (splitLines diff).length),
        isPrefixSeq ("-".data) (((splitLines diff).get ⟨i, h⟩).data) = true →
        ∀ issue ∈ ScanDiff patterns diff filename, issue.lineNumber ≠ i + 1) ∧
    (∀ (patterns : List SecretPattern) (filename : String),
        ScanDiff patterns "-AKIA1234567890ABCDEF" filename = []) := by
  constructor
  · intro patterns filename diff i h hpre issue hmem hnum
    obtain ⟨j, hj, hjnum, hjpre, -⟩ :=
      mem_scanLines patterns filename (splitLines diff) 0 issue hmem
    have hij : j = i := by omega
    subst hij
    exact Bool.false_ne_true (hjpre.symm.trans hpre)
  · intro patterns filename
    rfl

/-- C4: for every line with `should_ignore(line)` true, the line scanner
emits no finding for that line even if a secret pattern would match; in
particular the line `api_key = "dummyvalue1234567890"` yields zero
findings although the Generic API Key regexp matches it. -/
theorem ignored_lines_emit_no_findings :
    (∀ (patterns : List SecretPattern) (filename diff : String) (i : Nat)
        (h : i < (splitLines diff).length),
        ShouldIgnoreLine ((splitLines diff).get ⟨i, h⟩) = true →
        ∀ issue ∈ ScanDiff patterns diff filename, issue.lineNumber ≠ i + 1) ∧
    (∀ (patterns : List SecretPattern) (filename : String),
        ScanDiff patterns "api_key = \"dummyvalue1234567890\"" filename
          = []) ∧
    ShouldIgnoreLine "api_key = \"dummyvalue1234567890\"" = true ∧
    genericApiKeyMatchString "api_key = \"dummyvalue1234567890\"" = true := by
  refine ⟨?_, fun _ _ => rfl, by decide, by decide⟩
  intro patterns filename diff i h hign issue hmem hnum
  obtain ⟨j, hj, hjnum, -, hjign⟩ :=
    mem_scanLines patterns filename (splitLines diff) 0 issue hmem
  have hij : j = i := by omega
  subst hij
  exact Bool.false_ne_true (hjign.symm.trans hign)

/-- C5: `ScanFiles` reports `found` exactly when the concatenated finding
list is non-empty, its finding list is the in-order concatenation of the
per-file scans, and its file count is the number of input files — files
with an empty patch contribute zero findings yet are counted. -/
theorem scanfiles_aggregate :
    ∀ (patterns : List SecretPattern) (files : List DiffFile),
      ((ScanFiles patterns files).found = true ↔
        (ScanFiles patterns files).issues ≠ []) ∧
      (ScanFiles patterns files).issues =
        files.flatMap (fun f => ScanDiff patterns f.patch f.filename) ∧
      (ScanFiles patterns files).totalFiles = files.length ∧
      (∀ filename, ScanDiff patterns "" filename = []) := by
  intro patterns files
  refine ⟨?_, ?_, rfl, fun _ => rfl⟩
  · simp [ScanFiles, List.length_pos]
  · show scanFilesIssues patterns files = _
    induction files with
    | nil => rfl
    | cons f rest ih => rw [scanFilesIssues, ih]; simp

/-- C10: the ignore heuristic is case-insensitive substring matching, so
any line containing a marker inside a longer word (here `test` inside
`latest`) is skipped entirely, even when the same line carries a string
matched by the CRITICAL `AWS Access Key ID` regexp. -/
theorem ignore_markers_match_inside_words :
    (∀ (line marker : String), marker ∈ ignoreMarkers →
        containsCI line marker = true → ShouldIgnoreLine line = true) ∧
    (∀ (patterns : List SecretPattern) (filename line : String) (n : Nat),
        ShouldIgnoreLine line = true →
        scanOneLine patterns filename line n = []) ∧
    containsCI "tag: latest AKIA1234567890ABCDEF" "test" = true ∧
    awsAccessKeyMatchString "tag: latest AKIA1234567890ABCDEF" = true ∧
    awsAccessKeyPattern.severity = "CRITICAL" ∧
    (∀ (patterns : List SecretPattern),
        ScanDiff patterns "tag: latest AKIA1234567890ABCDEF" "config.yaml"
          = []) := by
  refine ⟨?_, ?_, by decide, by decide, rfl, fun _ => rfl⟩
  · intro line marker hmem hc
    rw [ShouldIgnoreLine, List.any_eq_true]
    exact ⟨marker, hmem, hc⟩
  · intro patterns filename line n hign
    rw [scanOneLine]
    split
    · rfl
    · rfl

/-- A sequence is a prefix of itself followed by anything. -/
theorem isPrefixSeq_append_self :
    ∀ (p rest : List Char), isPrefixSeq p (p ++ rest) = true := by
  intro p rest
  induction p with
  | nil => rfl
  | cons c cs ih => simp [isPrefixSeq, ih]

/-! ### Claim theorems for the severity grouping -/

/-- A concrete finding whose severity string is none of the four
recognized levels. -/
def unknownSeverityIssue : SecurityIssue :=
  { type := "Custom Rule", filePath := "main.go", lineNumber := 3,
    severity := "UNKNOWN", description := "custom detector hit",
    pattern := "Custom Rule" }

/-- C8 counterexample: the severity `switch` of the alert builder has no
default branch, so a finding with severity `UNKNOWN` lands in none of the
four buckets — it is silently dropped, contrary to the claim. -/
theorem unknown_severity_is_dropped :
    unknownSeverityIssue ∉ (groupBySeverity [unknownSeverityIssue]).1 ∧
    unknownSeverityIssue ∉ (groupBySeverity [unknownSeverityIssue]).2.1 ∧
    unknownSeverityIssue ∉ (groupBySeverity [unknownSeverityIssue]).2.2.1 ∧
    unknownSeverityIssue ∉ (groupBySeverity [unknownSeverityIssue]).2.2.2 := by
  decide

/-- C8 amended: the grouping keeps exactly the findings whose severity is
one of the four recognized levels, each in its own bucket in discovery
order; a finding with any other severity value appears in no bucket. -/
theorem groupBySeverity_eq_filters :
    ∀ (issues : List SecurityIssue),
      groupBySeverity issues =
        (issues.filter (fun i => i.severity == "CRITICAL"),
         issues.filter (fun i => i.severity == "HIGH"),
         issues.filter (fun i => i.severity == "MEDIUM"),
         issues.filter (fun i => i.severity == "LOW")) := by
  intro issues
  induction issues with
  | nil => rfl
  | cons issue rest ih =>
      rw [groupBySeverity, ih]
      by_cases h1 : issue.severity = "CRITICAL"
      · simp [List.filter_cons, h1]
      · by_cases h2 : issue.severity = "HIGH"
        · simp [List.filter_cons, h1, h2]
        · by_cases h3 : issue.severity = "MEDIUM"
          · simp [List.filter_cons, h1, h2, h3]
          · by_cases h4 : issue.severity = "LOW"
            · simp [List.filter_cons, h1, h2, h3, h4]
            · simp [List.filter_cons, h1, h2, h3, h4]

/-! ### Claim theorems for the HTTP gate -/

/-- C9 counterexample: a POST with a valid signature, an unparsable body
and event-type header `push` is answered 200 (`Event ignored`), not 400 —
the event-type filter runs before the body is parsed. -/
theorem unparsable_body_not_always_400 :
    HandleWebhook "POST" true true "push" none = .eventIgnored ∧
    httpStatus (HandleWebhook "POST" true true "push" none) = 200 ∧
    ¬ httpStatus (HandleWebhook "POST" true true "push" none) = 400 := by
  refine ⟨rfl, rfl, by decide⟩

/-- C9 amended: for a verified POST with an unparsable body, the endpoint
responds 400 exactly when the event-type header is `pull_request`; for any
other event-type header the body is never parsed and the response is 200
(`Event ignored`).  Neither outcome dispatches processing. -/
theorem unparsable_body_response :
    ∀ (eventType : String),
      (eventType = "pull_request" →
        HandleWebhook "POST" true true eventType none = .badRequestParse ∧
        httpStatus (HandleWebhook "POST" true true eventType none) = 400 ∧
        dispatchesProcessing (HandleWebhook "POST" true true eventType none)
          = false) ∧
      (eventType ≠ "pull_request" →
        HandleWebhook "POST" true true eventType none = .eventIgnored ∧
        httpStatus (HandleWebhook "POST" true true eventType none) = 200 ∧
        dispatchesProcessing (HandleWebhook "POST" true true eventType none)
          = false) := by
  intro eventType
  constructor
  · intro h
    subst h
    exact ⟨rfl, rfl, rfl⟩
  · intro h
    have hH : HandleWebhook "POST" true true eventType none
        = .eventIgnored := by
      rw [HandleWebhook]
      simp [h]
    exact ⟨hH, by rw [hH]; rfl, by rw [hH]; rfl⟩

/-! ### Claim theorems for webhook signature verification -/

/-- C2: verification succeeds exactly on `sha256=` followed by the
lowercase hex encoding of the HMAC-SHA256 of the payload under the secret;
it fails when the prefix is absent or when the carried digest differs from
the recomputed one. -/
theorem verify_webhook_correct :
    ∀ (hmacSHA256 : List Nat → List Nat → List Nat)
      (secret payload : List Nat) (signature : List Char),
      (signature = "sha256=".data
          ++ hexEncode (hmacSHA256 secret payload) →
        VerifyWebhook hmacSHA256 secret payload signature = true) ∧
      (isPrefixSeq ("sha256=".data) signature = false →
        VerifyWebhook hmacSHA256 secret payload signature = false) ∧
      (∀ digest : List Char,
        signature = "sha256=".data ++ digest →
        digest ≠ hexEncode (hmacSHA256 secret payload) →
        VerifyWebhook hmacSHA256 secret payload signature = false) := by
  intro hmacSHA256 secret payload signature
  refine ⟨?_, ?_, ?_⟩
  · intro h
    subst h
    rw [VerifyWebhook]
    rw [isPrefixSeq_append_self]
    simp
  · intro h
    rw [VerifyWebhook, h]
    rfl
  · intro digest h hne
    subst h
    rw [VerifyWebhook]
    rw [isPrefixSeq_append_self]
    simp [hne]

/-! ### Helper lemmas about the aggregate result and the orchestrator -/

theorem scanFiles_issues (patterns : List SecretPattern)
    (files : List DiffFile) :
    (ScanFiles patterns files).issues = scanFilesIssues patterns files := rfl

theorem scanFiles_found (patterns : List SecretPattern)
    (files : List DiffFile) :
    (ScanFiles patterns files).found
      = decide (0 < (scanFilesIssues patterns files).length) := rfl

/-- `found` is true exactly when the finding list is non-empty. -/
theorem scanFiles_found_iff (patterns : List SecretPattern)
    (files : List DiffFile) :
    (ScanFiles patterns files).found = true ↔
    (ScanFiles patterns files).issues ≠ [] := by
  rw [scanFiles_found, scanFiles_issues]
  simp [List.length_pos]

/-- Some finding is CRITICAL iff the CRITICAL filter is non-empty. -/
theorem critical_any_iff (issues : List SecurityIssue) :
    (issues.any fun i => i.severity == "CRITICAL") = true ↔
    0 < (issues.filter fun i => i.severity == "CRITICAL").length := by
  rw [List.any_eq_true, List.length_pos, Ne, List.filter_eq_nil_iff]
  push_neg
  simp

/-- Is this action a post of a commit status with state `error`? -/
def isErrorStatus : Action → Bool
  | .postStatus _ _ _ state _ _ => state == "error"
  | _ => false

/-- After a successful diff fetch, the final-outcome commit statuses in the
run's trace form exactly the singleton given by the severity-precedence
decision. -/
theorem processPullRequest_final_statuses (patterns : List SecretPattern)
    (payload : WebhookPayload) (c : Collab) (files : List DiffFile)
    (h : c.getPRDiff = Except.ok files) :
    (processPullRequest patterns payload c).filter isFinalOutcomeStatus =
      [if (ScanFiles patterns files).issues.any
            (fun i => i.severity == "CRITICAL") then
         Action.postStatus payload.repository.owner.login
           payload.repository.name payload.pullRequest.head.sha "failure"
           ("❌ Found " ++
             toString ((ScanFiles patterns files).issues.filter
               (fun i => i.severity == "CRITICAL")).length ++
             " critical secret(s) - merge blocked!") statusContext
       else if (ScanFiles patterns files).found then
         Action.postStatus payload.repository.owner.login
           payload.repository.name payload.pullRequest.head.sha "success"
           ("⚠️  Found " ++
             toString (ScanFiles patterns files).issues.length ++
             " non-critical issue(s) - review recommended") statusContext
       else
         Action.postStatus payload.repository.owner.login
           payload.repository.name payload.pullRequest.head.sha "success"
           "✅ No secrets detected - safe to merge" statusContext] := by
  by_cases hC : ((ScanFiles patterns files).issues.any
      (fun i => i.severity == "CRITICAL")) = true
  · rcases hAI : c.aiReview with e | t
    all_goals by_cases hF : (ScanFiles patterns files).found = true
    all_goals
      simp [processPullRequest, h, hC, hF, hAI, isFinalOutcomeStatus]
  · rw [Bool.not_eq_true] at hC
    rcases hAI : c.aiReview with e | t
    all_goals by_cases hF : (ScanFiles patterns files).found = true
    all_goals
      simp [processPullRequest, h, hC, hF, hAI, isFinalOutcomeStatus]

/-! ### Claim theorems for the orchestrator -/

/-- C1: after a successful diff fetch, exactly one final scan-outcome
commit status is posted, and it follows the severity precedence: any
CRITICAL finding gives state `failure` with the CRITICAL count in the
description; otherwise a non-empty finding list gives `success` with the
warning description; an empty list gives `success` with the all-clear
description. -/
theorem commit_status_severity_precedence :
    ∀ (patterns : List SecretPattern) (payload : WebhookPayload)
      (c : Collab) (files : List DiffFile),
      c.getPRDiff = Except.ok files →
      ((processPullRequest patterns payload c).filter
          isFinalOutcomeStatus).length = 1 ∧
      (0 < ((ScanFiles patterns files).issues.filter
            (fun i => i.severity == "CRITICAL")).length →
        (processPullRequest patterns payload c).filter isFinalOutcomeStatus
          = [Action.postStatus payload.repository.owner.login
               payload.repository.name payload.pullRequest.head.sha
               "failure"
               ("❌ Found " ++
                 toString ((ScanFiles patterns files).issues.filter
                   (fun i => i.severity == "CRITICAL")).length ++
                 " critical secret(s) - merge blocked!") statusContext]) ∧
      (((ScanFiles patterns files).issues.filter
            (fun i => i.severity == "CRITICAL")).length = 0 →
        (ScanFiles patterns files).issues ≠ [] →
        (processPullRequest patterns payload c).filter isFinalOutcomeStatus
          = [Action.postStatus payload.repository.owner.login
               payload.repository.name payload.pullRequest.head.sha
               "success"
               ("⚠️  Found " ++
                 toString (ScanFiles patterns files).issues.length ++
                 " non-critical issue(s) - review recommended")
               statusContext]) ∧
      ((ScanFiles patterns files).issues = [] →
        (processPullRequest patterns payload c).filter isFinalOutcomeStatus
          = [Action.postStatus payload.repository.owner.login
               payload.repository.name payload.pullRequest.head.sha
               "success" "✅ No secrets detected - safe to merge"
               statusContext]) := by
  intro patterns payload c files h
  have key := processPullRequest_final_statuses patterns payload c files h
  refine ⟨?_, ?_, ?_, ?_⟩
  · rw [key]
    split
    · rfl
    · split
      · rfl
      · rfl
  · intro hcc
    have hC : ((ScanFiles patterns files).issues.any
        (fun i => i.severity == "CRITICAL")) = true :=
      (critical_any_iff _).mpr hcc
    rw [key, if_pos hC]
  · intro hcc hne
    have hC : ((ScanFiles patterns files).issues.any
        (fun i => i.severity == "CRITICAL")) = false := by
      rw [Bool.eq_false_iff]
      intro hc
      rw [critical_any_iff] at hc
      omega
    have hF : (ScanFiles patterns files).found = true :=
      (scanFiles_found_iff patterns files).mpr hne
    rw [key, if_neg (by simp [hC]), if_pos hF]
  · intro hnil
    have hC : ((ScanFiles patterns files).issues.any
        (fun i => i.severity == "CRITICAL")) = false := by
      rw [hnil]; rfl
    have hF : (ScanFiles patterns files).found = false := by
      rw [Bool.eq_false_iff]
      intro hf
      exact (scanFiles_found_iff patterns files).mp hf hnil
    rw [key, if_neg (by simp [hC]), if_neg (by simp [hF])]

/-- C6: when the diff fetch fails, the run posts the pending status and
then exactly one `error` commit status and stops: the scanner never runs,
no Slack message of any kind is sent, and no AI review is requested. -/
theorem fetch_failure_terminates :
    ∀ (patterns : List SecretPattern) (payload : WebhookPayload)
      (c : Collab) (errMsg : String),
      c.getPRDiff = Except.error errMsg →
      processPullRequest patterns payload c =
        [Action.postStatus payload.repository.owner.login
           payload.repository.name payload.pullRequest.head.sha "pending"
           "GitReviewed is scanning for secrets..." statusContext,
         Action.postStatus payload.repository.owner.login
           payload.repository.name payload.pullRequest.head.sha "error"
           "Failed to fetch PR diff" statusContext] ∧
      ((processPullRequest patterns payload c).filter isErrorStatus).length
        = 1 ∧
      Action.scanFiles ∉ processPullRequest patterns payload c ∧
      (∀ m : SlackMsg,
        Action.sendSlack m ∉ processPullRequest patterns payload c) ∧
      Action.requestAIReview ∉ processPullRequest patterns payload c := by
  intro patterns payload c errMsg h
  have e : processPullRequest patterns payload c =
      [Action.postStatus payload.repository.owner.login
         payload.repository.name payload.pullRequest.head.sha "pending"
         "GitReviewed is scanning for secrets..." statusContext,
       Action.postStatus payload.repository.owner.login
         payload.repository.name payload.pullRequest.head.sha "error"
         "Failed to fetch PR diff" statusContext] := by
    simp [processPullRequest, h]
  refine ⟨e, ?_, ?_, ?_, ?_⟩
  · rw [e]; rfl
  · rw [e]; simp
  · intro m; rw [e]; simp
  · rw [e]; simp

/-- C7: when the scan found secrets and the alert send fails, the AI
review is still requested — the alert error only gets logged and never
changes the control flow. -/
theorem alert_failure_does_not_skip_ai_review :
    ∀ (patterns : List SecretPattern) (payload : WebhookPayload)
      (c : Collab) (files : List DiffFile),
      c.getPRDiff = Except.ok files →
      (ScanFiles patterns files).found = true →
      c.sendAlertErr = true →
      Action.requestAIReview ∈ processPullRequest patterns payload c := by
  intro patterns payload c files h hfound halert
  rcases hAI : c.aiReview with e | t
  · simp [processPullRequest, h, hfound, hAI]
  · simp [processPullRequest, h, hfound, hAI]

/-! ### Concrete fixtures for witness instantiations -/

/-- A custom pattern whose matcher accepts every line (the scanner accepts
injected pattern sets via `NewScannerWithPatterns`). -/
def matchAllPattern : SecretPattern :=
  { name := "Match All", matcher := fun _ => true,
    description := "always matches", severity := "CRITICAL" }

/-- A concrete pull-request webhook payload. -/
def payloadA : WebhookPayload :=
  { action := "opened"
    pullRequest := { number := 7, head := { ref := "feature", sha := "abc123" } }
    repository := { name := "GitReviewed", owner := { login := "Rishav176" } } }

/-- A concrete changed file whose one-line patch matches no ignore marker. -/
def fileA : DiffFile :=
  { filename := "main.go", status := "modified", additions := 1,
    deletions := 0, changes := 1, patch := "zz" }

/-- Collaborators: empty diff, everything succeeds. -/
def collabOkEmpty : Collab :=
  { getPRDiff := Except.ok [], postPendingErr := false,
    postStatusErr := false, sendAlertErr := false,
    aiReview := Except.ok "looks good", sendReviewCompleteErr := false,
    sendAIReviewErr := false }

/-- Collaborators: the diff fetch fails. -/
def collabFetchErr : Collab :=
  { getPRDiff := Except.error "boom", postPendingErr := false,
    postStatusErr := false, sendAlertErr := false,
    aiReview := Except.ok "looks good", sendReviewCompleteErr := false,
    sendAIReviewErr := false }

/-- Collaborators: one changed file, the alert send fails. -/
def collabAlertErr : Collab :=
  { getPRDiff := Except.ok [fileA], postPendingErr := false,
    postStatusErr := false, sendAlertErr := true,
    aiReview := Except.error "nope", sendReviewCompleteErr := false,
    sendAIReviewErr := false }

/-! ### Witnesses -/

/-- C1 witness: with no findings the single final status is the all-clear
success. -/
theorem commit_status_severity_precedence_witness :
    (processPullRequest [] payloadA collabOkEmpty).filter
      isFinalOutcomeStatus
      = [Action.postStatus "Rishav176" "GitReviewed" "abc123" "success"
          "✅ No secrets detected - safe to merge" statusContext] :=
  (commit_status_severity_precedence [] payloadA collabOkEmpty []
    rfl).2.2.2 rfl

/-- C2 witness: a correctly prefixed and hex-encoded digest verifies; a
prefixless signature and a wrong digest are rejected. -/
theorem verify_webhook_correct_witness :
    VerifyWebhook (fun _ _ => [171]) [1] [2]
        ("sha256=".data ++ hexEncode [171]) = true ∧
    VerifyWebhook (fun _ _ => [171]) [1] [2] ("x".data) = false ∧
    VerifyWebhook (fun _ _ => [171]) [1] [2]
        ("sha256=".data ++ "00".data) = false :=
  ⟨(verify_webhook_correct (fun _ _ => [171]) [1] [2] _).1 rfl,
   (verify_webhook_correct (fun _ _ => [171]) [1] [2] _).2.1 (by decide),
   (verify_webhook_correct (fun _ _ => [171]) [1] [2] _).2.2
     ("00".data) rfl (by decide)⟩

/-- C3 witness: in the diff `-x` then `zz`, the issue found on line 2 is
not attributed to the removed line 1. -/
theorem removal_lines_emit_no_findings_witness :
    ({ type := "Match All", filePath := "f", lineNumber := 2,
       severity := "CRITICAL", description := "always matches",
       pattern := "Match All" } : SecurityIssue).lineNumber ≠ 1 :=
  removal_lines_emit_no_findings.1 [matchAllPattern] "f" "-x\nzz" 0
    (by decide) (by decide) _ (by decide)

/-- C4 witness: in the diff `dummy line` then `zz`, the issue found on
line 2 is not attributed to the ignored line 1. -/
theorem ignored_lines_emit_no_findings_witness :
    ({ type := "Match All", filePath := "f", lineNumber := 2,
       severity := "CRITICAL", description := "always matches",
       pattern := "Match All" } : SecurityIssue).lineNumber ≠ 1 :=
  ignored_lines_emit_no_findings.1 [matchAllPattern] "f" "dummy line\nzz" 0
    (by decide) (by decide) _ (by decide)

/-- C6 witness: with a failing diff fetch the trace is exactly the pending
status followed by the error status. -/
theorem fetch_failure_terminates_witness :
    processPullRequest [] payloadA collabFetchErr =
      [Action.postStatus "Rishav176" "GitReviewed" "abc123" "pending"
         "GitReviewed is scanning for secrets..." statusContext,
       Action.postStatus "Rishav176" "GitReviewed" "abc123" "error"
         "Failed to fetch PR diff" statusContext] :=
  (fetch_failure_terminates [] payloadA collabFetchErr "boom" rfl).1

/-- C7 witness: with one matching file and a failing alert send the AI
review is still requested. -/
theorem alert_failure_does_not_skip_ai_review_witness :
    Action.requestAIReview ∈
      processPullRequest [matchAllPattern] payloadA collabAlertErr :=
  alert_failure_does_not_skip_ai_review [matchAllPattern] payloadA
    collabAlertErr [fileA] rfl (by decide) rfl

/-- C9 witness (amended claim): unparsable body gives 400 for event type
`pull_request` and 200 for event type `push`. -/
theorem unparsable_body_response_witness :
    HandleWebhook "POST" true true "pull_request" none
      = HandleResult.badRequestParse ∧
    HandleWebhook "POST" true true "push" none
      = HandleResult.eventIgnored :=
  ⟨((unparsable_body_response "pull_request").1 rfl).1,
   ((unparsable_body_response "push").2 (by decide)).1⟩

/-- C10 witness: a line containing `latest` is ignored because `test` is a
substring, so it produces no issue for any pattern set. -/
theorem ignore_markers_match_inside_words_witness :
    ShouldIgnoreLine "releasing the latest build" = true ∧
    scanOneLine [matchAllPattern] "f" "releasing the latest build" 1
      = [] := by
  have h := ignore_markers_match_inside_words.1
    "releasing the latest build" "test" (by decide) (by decide)
  exact ⟨h,
    ignore_markers_match_inside_words.2.1 [matchAllPattern] "f" _ 1 h⟩

end GitReviewed
